import Mathlib

set_option maxRecDepth 100000

/-!
Shallow embedding of `src/logdbgview.py` (LogDbgView / LogDbgViewReal).

The program captures Win32 OutputDebugString messages: a background thread
repeatedly arms the DBWIN_BUFFER_READY event, waits on
[data_ready, stop] with WaitForMultipleObjects, and on data_ready reads a
4096-byte shared-memory snapshot (4-byte little-endian process id followed
by a 4092-byte payload), truncates the payload at the first NUL byte if one
is present, decodes it as strict UTF-8 (Python `str(bytes, UTF-8)`, which
raises UnicodeDecodeError on invalid input), and appends
`Process <id>: <text>\n` to the log file.

Bytes are modelled as `Nat` values below 256; text written to the log is
modelled as the list of Unicode code points.  A raising operation is
modelled as `Option`/`Except` returning `none`/`.error`.
-/

/-- Strict UTF-8 decoding of a byte list to its code points, `none` on the
first invalid sequence.  Faithful to the CPython default strict UTF-8
codec used by `str(data, UTF-8)`: rejects stray continuation bytes,
overlong encodings (leads 0xC0/0xC1, 0xE0 with second byte below 0xA0,
0xF0 with second byte below 0x90), surrogates (0xED with second byte
0xA0..0xBF), leads above 0xF4, and truncated sequences. -/
def utf8Decode : List Nat → Option (List Nat)
  | [] => some []
  | b :: rest =>
    if b < 128 then
      match utf8Decode rest with
      | some cps => some (b :: cps)
      | none => none
    else if b < 194 then none
    else if b < 224 then
      match rest with
      | b2 :: rest2 =>
        if 128 ≤ b2 ∧ b2 ≤ 191 then
          match utf8Decode rest2 with
          | some cps => some (((b - 192) * 64 + (b2 - 128)) :: cps)
          | none => none
        else none
      | [] => none
    else if b < 240 then
      match rest with
      | b2 :: b3 :: rest2 =>
        if (if b = 224 then 160 else 128) ≤ b2 ∧ b2 ≤ (if b = 237 then 159 else 191)
            ∧ 128 ≤ b3 ∧ b3 ≤ 191 then
          match utf8Decode rest2 with
          | some cps => some (((b - 224) * 4096 + (b2 - 128) * 64 + (b3 - 128)) :: cps)
          | none => none
        else none
      | _ => none
    else if b < 245 then
      match rest with
      | b2 :: b3 :: b4 :: rest2 =>
        if (if b = 240 then 144 else 128) ≤ b2 ∧ b2 ≤ (if b = 244 then 143 else 191)
            ∧ 128 ≤ b3 ∧ b3 ≤ 191 ∧ 128 ≤ b4 ∧ b4 ≤ 191 then
          match utf8Decode rest2 with
          | some cps =>
            some (((b - 240) * 262144 + (b2 - 128) * 4096 + (b3 - 128) * 64 + (b4 - 128)) :: cps)
          | none => none
        else none
      | _ => none
    else none

/-- Index of the first NUL byte, `data.index(0)` in the source
(total here; only ever used under the `0 ∈ data` guard, as in the source). -/
def firstNulIdx : List Nat → Nat
  | [] => 0
  | b :: rest => if b = 0 then 0 else firstNulIdx rest + 1

/-- `data[:data.index(0)] if 0 in data else data` — the byte slice the
source selects from the payload region before decoding
(src/logdbgview.py lines 258-261). -/
def payloadSlice (data : List Nat) : List Nat :=
  if 0 ∈ data then data.take (firstNulIdx data) else data

/-- `struct.unpack('L', bs)` on exactly four bytes: the unsigned
little-endian 32-bit integer (native layout on the Win32 target);
`none` models `struct.error` on a wrong-sized buffer. -/
def unpackU32LE : List Nat → Option Nat
  | [b0, b1, b2, b3] => some (b0 + 256 * b1 + 65536 * b2 + 16777216 * b3)
  | _ => none

/-- Code points of a string literal. -/
def strCodes (s : String) : List Nat := s.toList.map Char.toNat

/-- The text written for one message:
`Process {p}: {s}` plus a newline, via str.format(p=process_id, s=string)
(src/logdbgview.py line 262), as a list of code points. -/
def logLine (pid : Nat) (cps : List Nat) : List Nat :=
  strCodes "Process " ++ strCodes (Nat.repr pid) ++ strCodes ": " ++ cps ++ [10]

/-- The decode-and-log step of `LogDbgViewReal.run` on one channel snapshot
(src/logdbgview.py lines 255-262): seek to 0, read 4 bytes and unpack the
process id, read the remaining 4092 bytes, truncate at the first NUL if
present, decode strict UTF-8, and format the log line.  `none` models the
step raising (struct.error or UnicodeDecodeError), which propagates out of
`run` and kills the background thread. -/
def processSnapshot (snap : List Nat) : Option (List Nat) :=
  match unpackU32LE (snap.take 4) with
  | none => none
  | some pid =>
    match utf8Decode (payloadSlice ((snap.drop 4).take 4092)) with
    | none => none
    | some cps => some (logLine pid cps)

/-- Observable side effects on the operating system and file system,
used to state frame conditions (which OS objects an operation touches).
The stop event is the unnamed private event (`CreateEvent(..., None)`),
identified by `Option.none`. -/
inductive Effect where
  | openLogFile (name : String)
  | createEvent (name : Option String)
  | mmapOpen (name : String)
  | setEvent (name : Option String)
  | startThread
  | joinThread
  | closeBuffer
  | closeLogFile
  deriving Repr, DecidableEq

/-- State of a `LogDbgViewReal` object together with the OS objects it
holds.  `log` is the text content written to the log file so far (code
points); the three event flags model Win32 auto-reset event signal state;
`bufferContent` is the current 4096-byte shared-memory snapshot. -/
structure RealState where
  logOpen : Bool := false
  log : List Nat := []
  bufReadyCreated : Bool := false
  dataReadyCreated : Bool := false
  stopCreated : Bool := false
  bufferLength : Nat := 0
  bufferMapped : Bool := false
  bufferContent : List Nat := []
  bufferReady : Bool := false
  dataReady : Bool := false
  stopSignaled : Bool := false
  threadRunning : Bool := false
  deriving Repr, DecidableEq

/-- Which OS acquisitions succeed when `LogDbgViewReal.__init__` runs:
opening the log file, creating each of the three events, and attaching
the DBWIN_BUFFER shared-memory mapping. -/
structure Env where
  openLogOk : Bool
  bufReadyOk : Bool
  dataReadyOk : Bool
  stopOk : Bool
  mmapOk : Bool
  deriving Repr, DecidableEq

/-- `LogDbgViewReal.__init__` (src/logdbgview.py lines 219-236): acquires
the resources in source order — open the log file with mode `'w'`, create
DBWIN_BUFFER_READY, DBWIN_DATA_READY, the private stop event, set
`buffer_length = 4096`, and attach the DBWIN_BUFFER mapping.  The source
has no try/except: a failing step raises, and `.error` carries the object
state at that moment (the resources still held) plus the effects already
performed.  Note the constructor does not launch the thread. -/
def initReal (log_file_name : String) (env : Env) : Except (RealState × List Effect) (RealState × List Effect) :=
  let s0 : RealState := {}
  if ¬ env.openLogOk then .error (s0, []) else
  let s1 := {s0 with logOpen := true}
  let t1 := [Effect.openLogFile log_file_name]
  if ¬ env.bufReadyOk then .error (s1, t1) else
  let s2 := {s1 with bufReadyCreated := true}
  let t2 := t1 ++ [Effect.createEvent (some "DBWIN_BUFFER_READY")]
  if ¬ env.dataReadyOk then .error (s2, t2) else
  let s3 := {s2 with dataReadyCreated := true}
  let t3 := t2 ++ [Effect.createEvent (some "DBWIN_DATA_READY")]
  if ¬ env.stopOk then .error (s3, t3) else
  let s4 := {s3 with stopCreated := true, bufferLength := 4096}
  let t4 := t3 ++ [Effect.createEvent none]
  if ¬ env.mmapOk then .error (s4, t4) else
  .ok ({s4 with bufferMapped := true}, t4 ++ [Effect.mmapOpen "DBWIN_BUFFER"])

/-- `threading.Thread.start()` on the constructed object: launches the
background thread running `run`; it acquires no OS resources of its own. -/
def startReal (s : RealState) : RealState × List Effect :=
  ({s with threadRunning := true}, [Effect.startThread])

/-- Outcome of one iteration of the `while True` loop in
`LogDbgViewReal.run`: the loop continued after logging a message, exited
via `break`, terminated abnormally because the decode step raised, or
would block in `WaitForMultipleObjects` with neither event signaled. -/
inductive IterResult where
  | ran (s : RealState)
  | exited (s : RealState)
  | aborted (s : RealState)
  | blocked (s : RealState)
  deriving Repr, DecidableEq

/-- `WaitForMultipleObjects([data_ready, stop], 0, INFINITE)`: per Win32
semantics, when several objects are signaled the wait returns the lowest
index in the handle array, so `data_ready` (index 0) wins over `stop`
(index 1); `none` means neither is signaled and the call blocks. -/
def waitIndex (s : RealState) : Option Nat :=
  if s.dataReady then some 0 else if s.stopSignaled then some 1 else none

/-- One iteration of the loop body of `LogDbgViewReal.run`
(src/logdbgview.py lines 251-264): signal `buffer_ready`, wait on
`[data_ready, stop]`; releasing the wait auto-resets the event that
caused the return (both were created with `bManualReset = 0`).  On the
data branch the snapshot is decoded and logged (`.ran`), or the raised
UnicodeDecodeError escapes `run` and the thread dies (`.aborted`); on the
stop branch the loop `break`s (`.exited`). -/
def loopIter (s0 : RealState) : IterResult :=
  let s := {s0 with bufferReady := true}
  match waitIndex s with
  | some 0 =>
    let s := {s with dataReady := false}
    match processSnapshot s.bufferContent with
    | some line => .ran {s with log := s.log ++ line}
    | none => .aborted {s with threadRunning := false}
  | some _ => .exited {s with stopSignaled := false, threadRunning := false}
  | none => .blocked s

/-- The remaining execution of the background thread as observed by
`self.join()` in `close`, assuming no further external producer activity:
the thread runs loop iterations until it is no longer running.  After
`close` has signaled `stop` this takes at most two iterations (one to
drain a pending `data_ready`, one to observe `stop`). -/
def threadDrain (s : RealState) : RealState :=
  if s.threadRunning then
    match loopIter s with
    | .ran s1 =>
      match loopIter s1 with
      | .ran s2 => s2
      | .exited s2 => s2
      | .aborted s2 => s2
      | .blocked s2 => s2
    | .exited s1 => s1
    | .aborted s1 => s1
    | .blocked s1 => s1
  else s

/-- `LogDbgViewReal.close` (src/logdbgview.py lines 266-278), executed
unconditionally in source order: `SetEvent(self.stop)` (a state change of
the stop event), `self.join()` (wait for the thread to finish),
`self.buffer.close()`, `self.log_file.close()`.  The latter three are
no-ops when the thread has already exited / the objects are already
closed (Python permits closing an mmap or file twice), so `close` is a
total function; but `SetEvent` always re-signals the stop event. -/
def closeReal (s0 : RealState) : RealState × List Effect :=
  let s1 := {s0 with stopSignaled := true}
  let s2 := threadDrain s1
  let s3 := {s2 with bufferMapped := false}
  let s4 := {s3 with logOpen := false}
  (s4, [Effect.setEvent none, Effect.joinThread, Effect.closeBuffer, Effect.closeLogFile])

/-- A session object as returned by the factory: an instance of the base
class `LogDbgView` (the null session, which holds no state at all — its
`__init__` is `pass`) or of `LogDbgViewReal`. -/
inductive Session where
  | base : Session
  | real : RealState → Session
  deriving Repr, DecidableEq

/-- `LogDbgView.makeLogDbgView` (src/logdbgview.py lines 146-161):
`log_dbg_view = LogDbgViewReal if log_debug_strings == True else LogDbgView`
then `log_dbg_view(log_file_name)`.  Constructing the base class performs
no effects; constructing `LogDbgViewReal` runs `initReal`, whose raised
error propagates out of the factory. -/
def makeLogDbgView (log_debug_strings : Bool) (log_file_name : String) (env : Env) :
    Except (RealState × List Effect) (Session × List Effect) :=
  if log_debug_strings = true then
    match initReal log_file_name env with
    | .ok (s, tr) => .ok (.real s, tr)
    | .error e => .error e
  else .ok (.base, [])

/-- `start()` dispatched by the class of the object: `LogDbgView.start` is
`pass`; `LogDbgViewReal` inherits `threading.Thread.start`. -/
def sessionStart : Session → Session × List Effect
  | .base => (.base, [])
  | .real s =>
    match startReal s with
    | (s1, tr) => (.real s1, tr)

/-- `close()` dispatched by the class of the object: `LogDbgView.close` is
`pass`; `LogDbgViewReal.close` tears down. -/
def sessionClose : Session → Session × List Effect
  | .base => (.base, [])
  | .real s =>
    match closeReal s with
    | (s1, tr) => (.real s1, tr)

/-- `LogDbgView.__enter__` (src/logdbgview.py lines 122-132): the body is
`self.start()` with no return statement, so the method returns the Python
value None — the middle component is the value the `with` statement binds. -/
def enterCM (sess : Session) : Session × Option Session × List Effect :=
  match sessionStart sess with
  | (s1, tr) => (s1, none, tr)

/-- `LogDbgView.__exit__` (src/logdbgview.py lines 134-144): the body is
`self.close()`. -/
def exitCM (sess : Session) : Session × List Effect :=
  sessionClose sess

/-- A Python exception class, as far as the claims need one. -/
inductive PyExn where
  | attributeError
  deriving Repr, DecidableEq

/-- Calling `.close()` on the value bound by `with ... as x`: when that
value is `None`, Python raises `AttributeError`; on a session object the
call dispatches normally. -/
def invokeCloseOn : Option Session → Except PyExn (Session × List Effect)
  | none => .error .attributeError
  | some sess => .ok (sessionClose sess)

/-- An external producer delivering one message: it consumes
`buffer_ready`, writes the 4096-byte snapshot into the shared channel and
signals `data_ready` (the OutputDebugString convention the spec
describes; external to this code). -/
def deliver (snap : List Nat) (s : RealState) : RealState :=
  {s with bufferContent := snap, dataReady := true, bufferReady := false}

/-- One message delivered to a running session followed by the background
handling by the thread of it (one loop iteration).  If the thread has already
terminated nothing consumes the channel and the object state is
unchanged. -/
def procOne (s : RealState) (snap : List Nat) : RealState :=
  if s.threadRunning then
    match loopIter (deliver snap s) with
    | .ran t => t
    | .exited t => t
    | .aborted t => t
    | .blocked t => t
  else s

/-- A whole message sequence delivered to a session.  Messages delivered
around a null session go nowhere: the base class attaches no listener. -/
def procMsgs : Session → List (List Nat) → Session
  | .base, _ => .base
  | .real s, msgs => .real (msgs.foldl procOne s)

/-- Explicit lifecycle use, as in `LogDbgView.test` lines 182-187:
construct via the factory, call `start()`, let the message sequence be
delivered, call `close()`.  Returns the final object and the
concatenated effect trace (or the construction error). -/
def explicitUse (log_debug_strings : Bool) (log_file_name : String) (env : Env)
    (msgs : List (List Nat)) : Except (RealState × List Effect) (Session × List Effect) :=
  match makeLogDbgView log_debug_strings log_file_name env with
  | .error e => .error e
  | .ok (sess, tr0) =>
    match sessionStart sess with
    | (s1, tr1) =>
      match sessionClose (procMsgs s1 msgs) with
      | (s3, tr3) => .ok (s3, tr0 ++ (tr1 ++ tr3))

/-- Scoped (`with`-statement) use, as in `LogDbgView.test` lines 192-196:
construct via the factory, `__enter__` on entry, deliver the message
sequence in the body, `__exit__` on exit. -/
def withUse (log_debug_strings : Bool) (log_file_name : String) (env : Env)
    (msgs : List (List Nat)) : Except (RealState × List Effect) (Session × List Effect) :=
  match makeLogDbgView log_debug_strings log_file_name env with
  | .error e => .error e
  | .ok (sess, tr0) =>
    match enterCM sess with
    | (s1, _, tr1) =>
      match exitCM (procMsgs s1 msgs) with
      | (s3, tr3) => .ok (s3, tr0 ++ (tr1 ++ tr3))

/-- The content of the log file as observable after a lifecycle run: the null
session never creates a file (`none`); the file of a real session holds the
written text. -/
def sessionLog : Session → Option (List Nat)
  | .base => none
  | .real s => some s.log

/-- The four little-endian bytes of a 32-bit process identifier, as a
producer writes them into the channel. -/
def u32Bytes (n : Nat) : List Nat :=
  [n % 256, n / 256 % 256, n / 65536 % 256, n / 16777216 % 256]

/-- A fresh, fully constructed `LogDbgViewReal` object: the state
`initReal` produces in the all-successful environment. -/
def constructedState : RealState :=
  { logOpen := true, bufReadyCreated := true, dataReadyCreated := true,
    stopCreated := true, bufferLength := 4096, bufferMapped := true }

/-- A constructed session on which `start()` has been called. -/
def startedState : RealState :=
  {constructedState with threadRunning := true}

/-- Environment in which every OS acquisition succeeds. -/
def envAllOk : Env := ⟨true, true, true, true, true⟩

/-- Environment in which everything succeeds except the DBWIN_BUFFER
mmap attachment. -/
def envMmapFail : Env := ⟨true, true, true, true, false⟩

/-- The resources still held at the moment the failing mmap call raises
inside the constructor. -/
def heldOnFailure : RealState :=
  { logOpen := true, bufReadyCreated := true, dataReadyCreated := true,
    stopCreated := true, bufferLength := 4096 }

/-- The log file name the test routine uses (src/logdbgview.py line 182). -/
def logName : String := "logfile1.txt"

/-- A 4096-byte channel snapshot from process 100 whose payload is the
three ASCII bytes of foo followed by NUL padding. -/
def okSnap : List Nat := u32Bytes 100 ++ [102, 111, 111] ++ List.replicate 4089 0

/-- A 4096-byte channel snapshot whose payload starts with the byte 255,
which no UTF-8 sequence contains, before the first NUL. -/
def badSnap : List Nat := u32Bytes 7 ++ 255 :: List.replicate 4091 0

/-- A 4096-byte channel snapshot whose payload starts with the bytes
237, 160, 128 — the (rejected) UTF-8 encoding of a surrogate — before
the first NUL. -/
def surrogateSnap : List Nat := u32Bytes 5 ++ [237, 160, 128] ++ List.replicate 4089 0

/-- A running session with the `badSnap` message pending. -/
def badState : RealState :=
  {startedState with bufferContent := badSnap, dataReady := true}

/-- A running session with the `okSnap` message pending. -/
def okState : RealState :=
  {startedState with bufferContent := okSnap, dataReady := true}

/-- A running session with the `okSnap` message pending and the stop
event signaled at the same time. -/
def raceOkState : RealState :=
  {okState with stopSignaled := true}

/-- A running session with the `badSnap` message pending and the stop
event signaled at the same time. -/
def raceBadState : RealState :=
  {badState with stopSignaled := true}

/-- The object state carried by an iteration outcome. -/
def IterResult.state : IterResult → RealState
  | .ran s => s
  | .exited s => s
  | .aborted s => s
  | .blocked s => s

/-- Whether the iteration ended the loop abnormally, by an exception
escaping `run`. -/
def IterResult.isAborted : IterResult → Bool
  | .aborted _ => true
  | _ => false

/-- Whether the iteration logged a message and continued the loop. -/
def IterResult.isRan : IterResult → Bool
  | .ran _ => true
  | _ => false

/-- Claim C1 counterexample: on a 4096-byte snapshot whose payload bytes
are not valid UTF-8, the decode-and-log step raises (modelled `none`) and
the loop iteration terminates the thread (`aborted`) without writing any
log entry, instead of logging a placeholder and continuing. -/
theorem c1_decode_raises_cex :
    badSnap.length = 4096 ∧
    processSnapshot badSnap = none ∧
    (loopIter badState).isAborted = true ∧
    (loopIter badState).state.log = badState.log ∧
    (loopIter badState).state.threadRunning = false := by
  refine ⟨?_, by decide, by decide, by decide, by decide⟩
  rw [badSnap, List.length_append, List.length_cons, List.length_replicate]
  rfl

/-- Claim C1, amended: the decode-and-log step never raises only for
snapshots whose selected payload bytes decode as UTF-8 — then one
deterministic line is appended and the loop continues; when the decode
step fails the UnicodeDecodeError escapes `run` and the loop terminates
abnormally without writing anything. -/
theorem c1_decode_outcome (s : RealState) (hd : s.dataReady = true) :
    (∀ line, processSnapshot s.bufferContent = some line →
      loopIter s = .ran {s with bufferReady := true, dataReady := false, log := s.log ++ line}) ∧
    (processSnapshot s.bufferContent = none →
      loopIter s = .aborted {s with bufferReady := true, dataReady := false, threadRunning := false}) := by
  constructor
  · intro line hline
    simp [loopIter, waitIndex, hd, hline]
  · intro hnone
    simp [loopIter, waitIndex, hd, hnone]

/-- Witness for `c1_decode_outcome` at the concrete running session
`okState`. -/
theorem c1_decode_outcome_witness :
    loopIter okState =
      .ran {okState with bufferReady := true, dataReady := false,
                         log := okState.log ++ logLine 100 [102, 111, 111]} :=
  (c1_decode_outcome okState rfl).1 (logLine 100 [102, 111, 111]) (by decide)

/-- The 4092-byte payload region holding the three ASCII bytes of foo
followed by NUL padding. -/
def fooPayload : List Nat := [102, 111, 111] ++ List.replicate 4089 0

/-- Claim C4, amended (restricted to payloads whose selected bytes decode
as UTF-8): the process id is the unsigned little-endian value of the
first 4 bytes; with a NUL present the logged text is the decoding of the
bytes preceding the first NUL, without one it is the decoding of the full
4092-byte remainder; the line written is the `Process {id}: {payload}`
format followed by a newline. -/
theorem c4_message_format (b0 b1 b2 b3 : Nat) (d : List Nat) (hd : d.length = 4092) :
    (∀ cps, 0 ∈ d → utf8Decode (d.take (firstNulIdx d)) = some cps →
      processSnapshot ([b0, b1, b2, b3] ++ d) =
        some (logLine (b0 + 256 * b1 + 65536 * b2 + 16777216 * b3) cps)) ∧
    (∀ cps, 0 ∉ d → utf8Decode d = some cps →
      processSnapshot ([b0, b1, b2, b3] ++ d) =
        some (logLine (b0 + 256 * b1 + 65536 * b2 + 16777216 * b3) cps)) := by
  have hTake : (([b0, b1, b2, b3] ++ d) : List Nat).take 4 = [b0, b1, b2, b3] := by
    simp
  have hDrop : (([b0, b1, b2, b3] ++ d) : List Nat).drop 4 = d := by
    simp
  have hAll : d.take 4092 = d := List.take_of_length_le (le_of_eq hd)
  constructor
  · intro cps hmem hdec
    simp [processSnapshot, hTake, hDrop, hAll, unpackU32LE, payloadSlice, hmem, hdec]
  · intro cps hmem hdec
    simp [processSnapshot, hTake, hDrop, hAll, unpackU32LE, payloadSlice, hmem, hdec]

/-- Witness for `c4_message_format`: the message (pid 100, foo) is logged
as the line Process 100: foo. -/
theorem c4_message_format_witness :
    processSnapshot ([100, 0, 0, 0] ++ fooPayload) = some (logLine 100 [102, 111, 111]) := by
  have hlen : fooPayload.length = 4092 := by
    unfold fooPayload
    rw [List.length_append, List.length_replicate]
    rfl
  have h := (c4_message_format 100 0 0 0 fooPayload hlen).1 [102, 111, 111]
    (by decide) (by decide)
  simpa using h

/-- Claim C4 counterexample: a received message with a NUL in its payload
region but invalid UTF-8 before it (an encoded surrogate) produces no
logged line at all — the decode step raises — contradicting that in both
cases a `Process {id}: {payload}` line is written. -/
theorem c4_no_line_cex :
    surrogateSnap.length = 4096 ∧
    0 ∈ (surrogateSnap.drop 4).take 4092 ∧
    processSnapshot surrogateSnap = none := by
  refine ⟨?_, by decide, by decide⟩
  rw [surrogateSnap, List.length_append, List.length_append, List.length_replicate]
  rfl

/-- Claim C10, amended: in the wait step data-ready (index 0) has strict
priority over stop (index 1).  When both are signaled: provided the
pending snapshot decodes, the loop logs it first, leaves stop signaled,
and only observes stop on the next iteration, exiting then without
writing; if the decode step raises instead, the loop terminates
abnormally without logging and without ever observing stop.  Whenever the
wait returns the stop index the loop exits having written nothing. -/
theorem c10_wait_priority (s : RealState) (hdata : s.dataReady = true)
    (hstop : s.stopSignaled = true) :
    (∀ line, processSnapshot s.bufferContent = some line →
      loopIter s = .ran {s with bufferReady := true, dataReady := false, log := s.log ++ line} ∧
      ({s with bufferReady := true, dataReady := false, log := s.log ++ line} : RealState).stopSignaled = true ∧
      loopIter {s with bufferReady := true, dataReady := false, log := s.log ++ line} =
        .exited {s with bufferReady := true, dataReady := false, log := s.log ++ line,
                        stopSignaled := false, threadRunning := false}) ∧
    (processSnapshot s.bufferContent = none →
      loopIter s = .aborted {s with bufferReady := true, dataReady := false, threadRunning := false}) ∧
    (∀ t : RealState, t.dataReady = false → t.stopSignaled = true →
      loopIter t = .exited {t with bufferReady := true, stopSignaled := false, threadRunning := false} ∧
      ({t with bufferReady := true, stopSignaled := false, threadRunning := false} : RealState).log = t.log) := by
  refine ⟨?_, ?_, ?_⟩
  · intro line hline
    refine ⟨by simp [loopIter, waitIndex, hdata, hline], by simp [hstop], ?_⟩
    simp [loopIter, waitIndex, hstop, hline]
  · intro hnone
    simp [loopIter, waitIndex, hdata, hnone]
  · intro t ht1 ht2
    exact ⟨by simp [loopIter, waitIndex, ht1, ht2], by simp⟩

/-- Witness for `c10_wait_priority` at the concrete racing state
`raceOkState`. -/
theorem c10_wait_priority_witness :
    loopIter raceOkState =
      .ran {raceOkState with bufferReady := true, dataReady := false,
                             log := raceOkState.log ++ logLine 100 [102, 111, 111]} ∧
    loopIter {raceOkState with bufferReady := true, dataReady := false,
                               log := raceOkState.log ++ logLine 100 [102, 111, 111]} =
      .exited {raceOkState with bufferReady := true, dataReady := false,
                                log := raceOkState.log ++ logLine 100 [102, 111, 111],
                                stopSignaled := false, threadRunning := false} := by
  have h := (c10_wait_priority raceOkState rfl rfl).1 (logLine 100 [102, 111, 111]) (by decide)
  exact ⟨h.1, h.2.2⟩

/-- Claim C10 counterexample: with data-ready and stop signaled at the
same wait and an undecodable pending message, the loop neither logs the
message nor observes stop on a later iteration: the iteration aborts the
thread with the message consumed but unlogged. -/
theorem c10_race_abort_cex :
    raceBadState.dataReady = true ∧
    raceBadState.stopSignaled = true ∧
    (loopIter raceBadState).isAborted = true ∧
    (loopIter raceBadState).state.log = raceBadState.log ∧
    (loopIter raceBadState).state.stopSignaled = true ∧
    (loopIter raceBadState).state.threadRunning = false := by
  exact ⟨rfl, rfl, by decide, by decide, by decide, by decide⟩

/-- Helper: once the stop event is signaled, the remaining thread
execution observed by join always ends with the thread not running —
it exits on the stop branch, or dies in the decode step. -/
theorem threadDrain_not_running (s : RealState) (hstop : s.stopSignaled = true) :
    (threadDrain s).threadRunning = false := by
  unfold threadDrain
  by_cases hr : s.threadRunning
  · rw [if_pos hr]
    by_cases hd : s.dataReady
    · cases hp : processSnapshot s.bufferContent with
      | some line => simp [loopIter, waitIndex, hd, hstop, hp]
      | none => simp [loopIter, waitIndex, hd, hp]
    · simp [loopIter, waitIndex, hd, hstop]
  · simp [hr]

/-- Claim C3: `close()` on a started session performs the teardown
operations exactly once, in the fixed source order — signal the stop
event, join the background thread, close the shared-memory buffer, close
the log file — and when it returns the background thread is no longer
running. -/
theorem c3_close_order (s : RealState) (_hr : s.threadRunning = true) :
    (closeReal s).2 =
      [Effect.setEvent none, Effect.joinThread, Effect.closeBuffer, Effect.closeLogFile] ∧
    ((closeReal s).1).threadRunning = false ∧
    ((closeReal s).1).bufferMapped = false ∧
    ((closeReal s).1).logOpen = false := by
  refine ⟨rfl, ?_, rfl, rfl⟩
  show (threadDrain {s with stopSignaled := true}).threadRunning = false
  exact threadDrain_not_running _ rfl

/-- Witness for `c3_close_order` at the concrete started session. -/
theorem c3_close_order_witness :
    (closeReal startedState).2 =
      [Effect.setEvent none, Effect.joinThread, Effect.closeBuffer, Effect.closeLogFile] ∧
    ((closeReal startedState).1).threadRunning = false ∧
    ((closeReal startedState).1).bufferMapped = false ∧
    ((closeReal startedState).1).logOpen = false :=
  c3_close_order startedState rfl

/-- The state of the concrete started session after its first `close()`. -/
def closedState : RealState := (closeReal startedState).1

/-- Claim C2 counterexample: after a started session has been closed once,
a second `close()` does not leave all state unchanged and is not free of
OS-object writes: it signals the private stop event again (`SetEvent` is
called unconditionally), flipping it from nonsignaled back to signaled. -/
theorem c2_second_close_cex :
    closedState.stopSignaled = false ∧
    ((closeReal closedState).1).stopSignaled = true ∧
    (closeReal closedState).1 ≠ closedState ∧
    Effect.setEvent none ∈ (closeReal closedState).2 := by
  refine ⟨by decide, by decide, by decide, by decide⟩

/-- Claim C2, amended: the second `close()` does not raise (every step is
a permitted no-op on the already-stopped session: join on a finished
thread, re-closing the mmap and the file) and performs no log writes —
the log content and every other field are unchanged — but it does write
to one OS object: it re-signals the private stop event. -/
theorem c2_second_close (s : RealState) (hr : s.threadRunning = false)
    (hb : s.bufferMapped = false) (hl : s.logOpen = false) :
    (closeReal s).1 = {s with stopSignaled := true} ∧
    ((closeReal s).1).log = s.log ∧
    (closeReal s).2 =
      [Effect.setEvent none, Effect.joinThread, Effect.closeBuffer, Effect.closeLogFile] := by
  have hdrain : threadDrain {s with stopSignaled := true} = {s with stopSignaled := true} := by
    unfold threadDrain
    simp [hr]
  refine ⟨?_, ?_, rfl⟩
  · show ({(threadDrain {s with stopSignaled := true}) with
        bufferMapped := false, logOpen := false} : RealState) = {s with stopSignaled := true}
    rw [hdrain]
    cases s
    simp_all
  · show ({(threadDrain {s with stopSignaled := true}) with
        bufferMapped := false, logOpen := false} : RealState).log = s.log
    rw [hdrain]

/-- Witness for `c2_second_close` at the concrete once-closed session. -/
theorem c2_second_close_witness :
    (closeReal closedState).1 = {closedState with stopSignaled := true} ∧
    ((closeReal closedState).1).log = closedState.log ∧
    (closeReal closedState).2 =
      [Effect.setEvent none, Effect.joinThread, Effect.closeBuffer, Effect.closeLogFile] :=
  c2_second_close closedState (by decide) (by decide) (by decide)

/-- The effect trace of a construction that fails at the mmap attachment:
the log file was opened and the three events created before the raise. -/
def trFail : List Effect :=
  [Effect.openLogFile logName, Effect.createEvent (some "DBWIN_BUFFER_READY"),
   Effect.createEvent (some "DBWIN_DATA_READY"), Effect.createEvent none]

/-- The full effect trace of a successful construction. -/
def trConstruct : List Effect :=
  trFail ++ [Effect.mmapOpen "DBWIN_BUFFER"]

/-- Claim C5 counterexample: constructing the session (which is what the
factory call does) already opens the log file, creates the two well-known
events and the private stop event, and attaches the shared channel —
while `start()` has not been called (the background task is not running).
So the resources are acquired before `start()`, not at `start()`. -/
theorem c5_acquired_before_start_cex :
    initReal logName envAllOk = .ok (constructedState, trConstruct) ∧
    constructedState.logOpen = true ∧
    constructedState.bufReadyCreated = true ∧
    constructedState.dataReadyCreated = true ∧
    constructedState.stopCreated = true ∧
    constructedState.bufferMapped = true ∧
    constructedState.threadRunning = false := by
  refine ⟨rfl, rfl, rfl, rfl, rfl, rfl, rfl⟩

/-- Claim C5, amended: the log file is opened for writing (mode 'w',
truncating), the two well-known signals and the private stop signal are
created, and the fixed-capacity channel attached, at construction time —
when the factory instantiates `LogDbgViewReal` — which precedes `start()`;
`start()` itself only launches the background task and acquires nothing. -/
theorem c5_resources_at_construction (log_file_name : String) (env : Env)
    (h1 : env.openLogOk = true) (h2 : env.bufReadyOk = true) (h3 : env.dataReadyOk = true)
    (h4 : env.stopOk = true) (h5 : env.mmapOk = true) :
    initReal log_file_name env =
      .ok (constructedState,
        [Effect.openLogFile log_file_name, Effect.createEvent (some "DBWIN_BUFFER_READY"),
         Effect.createEvent (some "DBWIN_DATA_READY"), Effect.createEvent none,
         Effect.mmapOpen "DBWIN_BUFFER"]) ∧
    constructedState.threadRunning = false ∧
    (∀ s : RealState, startReal s = ({s with threadRunning := true}, [Effect.startThread])) := by
  refine ⟨?_, rfl, fun s => rfl⟩
  simp [initReal, h1, h2, h3, h4, h5, constructedState]

/-- Witness for `c5_resources_at_construction` in the all-successful
environment. -/
theorem c5_resources_at_construction_witness :
    initReal logName envAllOk =
      .ok (constructedState,
        [Effect.openLogFile logName, Effect.createEvent (some "DBWIN_BUFFER_READY"),
         Effect.createEvent (some "DBWIN_DATA_READY"), Effect.createEvent none,
         Effect.mmapOpen "DBWIN_BUFFER"]) ∧
    constructedState.threadRunning = false ∧
    (∀ s : RealState, startReal s = ({s with threadRunning := true}, [Effect.startThread])) :=
  c5_resources_at_construction logName envAllOk rfl rfl rfl rfl rfl

/-- Claim C6 counterexample: when the mmap attachment fails during
construction, the error surfaces while the log file is still open and
all three events still exist — the partially-acquired resources are not
released before the error propagates. -/
theorem c6_no_release_cex :
    initReal logName envMmapFail = .error (heldOnFailure, trFail) ∧
    heldOnFailure.logOpen = true ∧
    heldOnFailure.bufReadyCreated = true ∧
    heldOnFailure.dataReadyCreated = true ∧
    heldOnFailure.stopCreated = true ∧
    heldOnFailure.threadRunning = false := by
  refine ⟨rfl, rfl, rfl, rfl, rfl, rfl⟩

/-- Claim C6, amended: when any acquisition in the constructor fails, the
error is propagated (the constructor returns no session) and the session
is unstarted, but every resource acquired before the failing step is
still held when the error surfaces — the constructor has no cleanup
handler, so nothing is released. -/
theorem c6_failure_keeps_resources (log_file_name : String) (env : Env)
    (e : RealState) (tr : List Effect)
    (hfail : initReal log_file_name env = .error (e, tr)) :
    e.threadRunning = false ∧
    e.logOpen = env.openLogOk ∧
    e.bufReadyCreated = (env.openLogOk && env.bufReadyOk) ∧
    e.dataReadyCreated = (env.openLogOk && env.bufReadyOk && env.dataReadyOk) ∧
    e.stopCreated = (env.openLogOk && env.bufReadyOk && env.dataReadyOk && env.stopOk) ∧
    e.bufferMapped = false := by
  obtain ⟨o, b, d, st, m⟩ := env
  cases o <;> cases b <;> cases d <;> cases st <;> cases m <;> simp_all [initReal]
  all_goals obtain ⟨he, ht⟩ := hfail
  all_goals subst he
  all_goals exact ⟨rfl, rfl, rfl, rfl, rfl, rfl⟩

/-- Witness for `c6_failure_keeps_resources` at the mmap-failure
environment. -/
theorem c6_failure_keeps_resources_witness :
    heldOnFailure.threadRunning = false ∧
    heldOnFailure.logOpen = envMmapFail.openLogOk ∧
    heldOnFailure.bufReadyCreated = (envMmapFail.openLogOk && envMmapFail.bufReadyOk) ∧
    heldOnFailure.dataReadyCreated =
      (envMmapFail.openLogOk && envMmapFail.bufReadyOk && envMmapFail.dataReadyOk) ∧
    heldOnFailure.stopCreated =
      (envMmapFail.openLogOk && envMmapFail.bufReadyOk && envMmapFail.dataReadyOk
        && envMmapFail.stopOk) ∧
    heldOnFailure.bufferMapped = false :=
  c6_failure_keeps_resources logName envMmapFail heldOnFailure trFail rfl

/-- Claim C7: with capture disabled the factory returns a base-class
(null) session; its construction, `start()`, `stop()` and the scoped
entry/exit perform no effect at all — no log file is created or written
and no named OS object is opened or signaled — and the object is
unchanged by every operation. -/
theorem c7_null_session_frame (log_file_name : String) (env : Env) :
    makeLogDbgView false log_file_name env = .ok (.base, []) ∧
    sessionStart .base = (.base, []) ∧
    sessionClose .base = (.base, []) ∧
    enterCM .base = (.base, none, []) ∧
    exitCM .base = (.base, []) ∧
    sessionLog .base = none :=
  ⟨rfl, rfl, rfl, rfl, rfl, rfl⟩

/-- The content of the log file produced by a whole lifecycle run
(`none` when no session object was produced or no file was created). -/
def logOfOutcome : Except (RealState × List Effect) (Session × List Effect) → Option (List Nat)
  | .error (s, _) => some s.log
  | .ok (sess, _) => sessionLog sess

/-- Claim C8: for every factory flag, log destination, environment and
delivered message sequence, the scoped (`with`-statement) form produces
exactly the same outcome as the explicit `start()`/`stop()` form — in
particular a byte-identical log — because `__enter__` and `__exit__`
simply call `start()` and `close()`. -/
theorem c8_scoped_equiv (log_debug_strings : Bool) (log_file_name : String)
    (env : Env) (msgs : List (List Nat)) :
    withUse log_debug_strings log_file_name env msgs =
      explicitUse log_debug_strings log_file_name env msgs ∧
    logOfOutcome (withUse log_debug_strings log_file_name env msgs) =
      logOfOutcome (explicitUse log_debug_strings log_file_name env msgs) := by
  have h : withUse log_debug_strings log_file_name env msgs =
      explicitUse log_debug_strings log_file_name env msgs := by
    cases hm : makeLogDbgView log_debug_strings log_file_name env with
    | error e => simp [withUse, explicitUse, hm]
    | ok pr =>
      obtain ⟨sess, tr0⟩ := pr
      cases sess <;> simp [withUse, explicitUse, enterCM, exitCM, hm]
  exact ⟨h, congrArg logOfOutcome h⟩

/-- Claim C9: `__enter__` calls `start()` but has no return statement, so
the value bound by the `with` statement is always the Python value None;
invoking a session method such as `close` on that bound value raises
AttributeError. -/
theorem c9_enter_returns_none (sess : Session) :
    (enterCM sess).2.1 = none ∧
    invokeCloseOn (enterCM sess).2.1 = .error PyExn.attributeError := by
  cases sess <;> simp [enterCM, sessionStart, startReal, invokeCloseOn]
